import Mathlib

/-!
Verification development for the "Temple & Tourist Spot Crowd Density
Predictor" (src/script.js).  The core logic — the footfall heuristic, the
quartile engine, the density classifier, the per-location statistics and the
dataset generator — is embedded shallowly: JavaScript numbers are modelled as
exact rationals (`ℚ`), integer results as `ℤ`/`ℕ`, and the unseeded
`Math.random()` draws consumed by the generator are passed in explicitly as
inputs in `[0,1)`.
-/

namespace CrowdScript

/-- JavaScript `Math.round`: rounds half toward positive infinity,
`Math.round x = ⌊x + 0.5⌋`. -/
def jsRound (q : ℚ) : ℤ := ⌊q + 1/2⌋

/-- JavaScript `Number(t.toFixed(1))` for the non-negative temperatures that
occur here: round to one decimal place, ties away from zero. -/
def toFixed1 (q : ℚ) : ℚ := (jsRound (q * 10) : ℚ) / 10

/-- `const LOCATIONS = [...]` (script.js:20-23). -/
def LOCATIONS : List String :=
  ["Chamundi_Temple", "Nanjangud_Temple", "Srirangapatna_Temple",
   "Mysore_Palace", "Brindavan_Gardens", "Mysore_Zoo", "KRS_Dam"]

/-- `const locPopularity = {...}` (script.js:25-33), as an association list
(JavaScript object-literal insertion order). -/
def locPopularity : List (String × ℚ) :=
  [("Chamundi_Temple", 1.2), ("Nanjangud_Temple", 0.9),
   ("Srirangapatna_Temple", 0.6), ("Mysore_Palace", 1.5),
   ("Brindavan_Gardens", 1.1), ("Mysore_Zoo", 1.0), ("KRS_Dam", 0.7)]

/-- `const baseScale = {...}` (script.js:35-43). -/
def baseScale : List (String × ℚ) :=
  [("Chamundi_Temple", 500), ("Nanjangud_Temple", 300),
   ("Srirangapatna_Temple", 150), ("Mysore_Palace", 800),
   ("Brindavan_Gardens", 450), ("Mysore_Zoo", 350), ("KRS_Dam", 200)]

/-- `const weatherMultiplier = {...}` (script.js:45-51). -/
def weatherMultiplier : List (String × ℚ) :=
  [("Clear", 1.0), ("Cloudy", 0.95), ("Rain", 0.6), ("Hot", 0.8),
   ("Humid", 0.9)]

/-- `Object.keys(weatherMultiplier)`: for string keys JavaScript iterates in
insertion order. -/
def weatherTypes : List String := weatherMultiplier.map Prod.fst

/-- `const FESTIVAL_DATES = new Set([...])` (script.js:54-59). -/
def FESTIVAL_DATES : List String :=
  ["2024-01-14", "2024-01-26", "2024-02-14", "2024-03-08", "2024-03-25",
   "2024-04-09", "2024-04-22", "2024-05-01", "2024-08-15", "2024-10-02",
   "2024-10-24", "2024-11-01", "2024-11-12", "2024-12-25",
   "2025-01-14", "2025-02-14", "2025-03-17", "2025-04-21", "2025-11-04"]

/-- Object-literal lookup with a default, modelling both `obj[k] || d`
(falsy fallback) and `obj[k] ?? d` (nullish fallback): the two coincide here
because no stored value is `0`. -/
def lookupD (m : List (String × ℚ)) (k : String) (d : ℚ) : ℚ :=
  (m.lookup k).getD d

/-- `timeFactor(hour)` (script.js:105-112). -/
def timeFactor (hour : ℕ) : ℚ :=
  if 6 ≤ hour ∧ hour < 9 then 0.9
  else if 9 ≤ hour ∧ hour < 12 then 1.0
  else if 12 ≤ hour ∧ hour < 15 then 0.8
  else if 15 ≤ hour ∧ hour < 18 then 1.1
  else if 18 ≤ hour ∧ hour < 21 then 1.4
  else 0.6

/-- `tempFactor(temp)` (script.js:113-117). -/
def tempFactor (temp : ℚ) : ℚ :=
  if temp > 32 then 0.8 else if temp < 20 then 0.85 else 1.0

/-- The noise-free product `base * pop * tf * festivalFactor * holidayFactor
* wmul * tfac` of `computeFootfallSample` (script.js:132), with the source's
defaulting: `locPopularity[location] || 1.0`, `baseScale[location] || 200`,
`weatherMultiplier[weather] ?? 1.0`. -/
def meanFootfall (location : String) (hour : ℕ) (weather : String)
    (temp : ℚ) (fest hol : Bool) : ℚ :=
  let pop := lookupD locPopularity location 1.0
  let tf := timeFactor hour
  let festivalFactor : ℚ := if fest then 2.0 else 1.0
  let holidayFactor : ℚ := if hol then 1.4 else 1.0
  let wmul := lookupD weatherMultiplier weather 1.0
  let tfac := tempFactor temp
  let base := lookupD baseScale location 200
  base * pop * tf * festivalFactor * holidayFactor * wmul * tfac

/-- `computeFootfallSample` (script.js:122-134):
`Math.max(0, Math.round(mean + noise))`.  The Gaussian noise value produced
by `gaussianRandom(0, base*0.15)` is abstracted as the explicit `noise`
argument, so the noise-free behaviour is obtained at `noise = 0`. -/
def computeFootfallSample (location : String) (hour : ℕ) (weather : String)
    (temp : ℚ) (fest hol : Bool) (noise : ℚ) : ℤ :=
  max 0 (jsRound (meanFootfall location hour weather temp fest hol + noise))

/-- The four density tiers, in the order used by the rank map
`{Low:0, Medium:1, High:2, Very_High:3}` (script.js:212). -/
inductive DensityLabel where
  | Low : DensityLabel
  | Medium : DensityLabel
  | High : DensityLabel
  | Very_High : DensityLabel
deriving DecidableEq, Repr

/-- `({Low:0,Medium:1,High:2,Very_High:3})[label]` (script.js:212). -/
def densityRank : DensityLabel → ℕ
  | .Low => 0
  | .Medium => 1
  | .High => 2
  | .Very_High => 3

/-- Result of `mapToDensityLabel`: either the explicit `"Unknown"` string
returned when `QUARTILES` is null, or one of the four tier labels. -/
inductive ClassifyResult where
  | Unknown : ClassifyResult
  | label : DensityLabel → ClassifyResult
deriving DecidableEq, Repr

/-- `QUARTILES = {q1,q2,q3}` (script.js:88, 204). -/
structure QuartileSet where
  q1 : ℤ
  q2 : ℤ
  q3 : ℤ
deriving DecidableEq, Repr

/-- `mapToDensityLabel(footfall)` (script.js:339-345).  The nullable global
`QUARTILES` is passed explicitly as an `Option`. -/
def mapToDensityLabel (QUARTILES : Option QuartileSet) (footfall : ℤ) :
    ClassifyResult :=
  match QUARTILES with
  | none => .Unknown
  | some q =>
    if footfall ≤ q.q1 then .label .Low
    else if footfall ≤ q.q2 then .label .Medium
    else if footfall ≤ q.q3 then .label .High
    else .label .Very_High

/-- Extract the tier of a classification result, `none` for `"Unknown"`. -/
def labelOfResult : ClassifyResult → Option DensityLabel
  | .Unknown => none
  | .label l => some l

/-- One dataset row (script.js:171-183, 679-691).  `density_label` and
`density_int` are absent (`none`) until the labeling pass fills them in. -/
structure Observation where
  datetime : String
  date : String
  day_of_week : ℕ
  month : ℕ
  hour : ℕ
  location : String
  weather : String
  temperature : ℚ
  is_festival : ℕ
  is_holiday : ℕ
  footfall : ℤ
  density_label : Option DensityLabel
  density_int : Option ℕ
deriving DecidableEq, Repr

/-- Body of the labeling loop of `computeGlobalQuartilesAndLabels`
(script.js:207-213): the inline `if/else if` chain on `r.footfall` plus the
rank map for `density_int`. -/
def labelRow (q : QuartileSet) (r : Observation) : Observation :=
  let lbl : DensityLabel :=
    if r.footfall ≤ q.q1 then .Low
    else if r.footfall ≤ q.q2 then .Medium
    else if r.footfall ≤ q.q3 then .High
    else .Very_High
  { r with density_label := some lbl, density_int := some (densityRank lbl) }

/-- `computeGlobalQuartilesAndLabels` (script.js:194-214).  Returns the
`QUARTILES` value and the relabeled dataset.  `Math.floor(n*0.25)` on an
exact double equals natural division `n/4`, and likewise `n/2`, `3*n/4`.
The early return at `n = 0` leaves the (empty) dataset unlabeled. -/
def computeGlobalQuartilesAndLabels (dataset : List Observation) :
    QuartileSet × List Observation :=
  let SAMPLES_SORTED := (dataset.map (·.footfall)).insertionSort (· ≤ ·)
  let n := SAMPLES_SORTED.length
  if n = 0 then (⟨0, 0, 0⟩, dataset)
  else
    let q1 := SAMPLES_SORTED.getD (n / 4) 0
    let q2 := SAMPLES_SORTED.getD (n / 2) 0
    let q3 := SAMPLES_SORTED.getD (3 * n / 4) 0
    (⟨q1, q2, q3⟩, dataset.map (labelRow ⟨q1, q2, q3⟩))

/-- The spec's QuantileEngine contract `compute_quartiles(samples)` (§4.4),
stated in the spec's words: sort ascending, take `sorted[⌊n·p⌋]` for
p = 0.25, 0.50, 0.75, and `{0,0,0}` for an empty sample.  Used to compare
the two inline quartile computations of the source against one shared
algorithm. -/
def compute_quartiles (samples : List ℤ) : QuartileSet :=
  let sorted := samples.insertionSort (· ≤ ·)
  let n := samples.length
  if n = 0 then ⟨0, 0, 0⟩
  else ⟨sorted.getD (n / 4) 0, sorted.getD (n / 2) 0, sorted.getD (3 * n / 4) 0⟩

/-- One entry `{hour, avg}` of the per-location top-hours list
(script.js:240). -/
structure HourAvg where
  hour : ℕ
  avg : ℤ
deriving DecidableEq, Repr

/-- The distinct hours occurring in `rows`, ascending.  This is
`Object.keys(hourBuckets)` (script.js:239): JavaScript iterates integer-like
object keys in ascending numeric order. -/
def hoursPresent (rows : List Observation) : List ℕ :=
  ((rows.map (·.hour)).dedup).insertionSort (· ≤ ·)

/-- `hourBuckets[h]`: total footfall of the rows with hour `h`
(script.js:236). -/
def hourSum (rows : List Observation) (h : ℕ) : ℤ :=
  ((rows.filter (fun r => r.hour = h)).map (·.footfall)).sum

/-- `counts[h]`: number of rows with hour `h` (script.js:237). -/
def hourCount (rows : List Observation) (h : ℕ) : ℕ :=
  (rows.filter (fun r => r.hour = h)).length

/-- The unsorted `avgPerHour` list (script.js:239-240): one entry per
occurring hour, `avg = Math.round(hourBuckets[h] / counts[h])`, in the
ascending key order of `Object.keys`. -/
def hourAvgBase (rows : List Observation) : List HourAvg :=
  (hoursPresent rows).map fun h =>
    ⟨h, jsRound ((hourSum rows h : ℚ) / (hourCount rows h : ℚ))⟩

/-- The comparator `(a,b) => b.avg - a.avg` (script.js:241): `a` sorts
before `b` exactly when `a.avg ≥ b.avg`. -/
def avgGE (a b : HourAvg) : Prop := b.avg ≤ a.avg

instance : DecidableRel avgGE := fun a b => Int.decLe b.avg a.avg

/-- `.sort((a,b)=>b.avg-a.avg).slice(0,5)` (script.js:241): JavaScript
`Array.prototype.sort` is stable, and `List.insertionSort` is the stable
sort realising the same comparator. -/
def topHoursFor (rows : List Observation) : List HourAvg :=
  ((hourAvgBase rows).insertionSort avgGE).take 5

/-- `PER_LOCATION_STATS[loc]` value `{q1,q2,q3,topHours}` (script.js:224,
242). -/
structure LocationStats where
  q1 : ℤ
  q2 : ℤ
  q3 : ℤ
  topHours : List HourAvg
deriving DecidableEq, Repr

/-- Body of the per-location loop of `computePerLocationStats`
(script.js:221-243).  The source filters `DATASET` by location once for
`items` and re-scans it with `continue` for the hour buckets; both scans
keep exactly the rows with `location = loc`, here `rows`. -/
def perLocationStat (dataset : List Observation) (loc : String) :
    LocationStats :=
  let rows := dataset.filter (fun d => d.location = loc)
  let items := (rows.map (·.footfall)).insertionSort (· ≤ ·)
  if items.length = 0 then ⟨0, 0, 0, []⟩
  else
    let n := items.length
    ⟨items.getD (n / 4) 0, items.getD (n / 2) 0, items.getD (3 * n / 4) 0,
     topHoursFor rows⟩

/-- `computePerLocationStats` (script.js:219-244): the `PER_LOCATION_STATS`
dictionary, keyed by the fixed `LOCATIONS`. -/
def computePerLocationStats (dataset : List Observation) :
    List (String × LocationStats) :=
  LOCATIONS.map fun loc => (loc, perLocationStat dataset loc)

/-- `const base_temp_by_month = [...]` (script.js:145, 660). -/
def base_temp_by_month : List ℚ :=
  [22, 23, 25, 27, 28, 28, 27, 27, 26, 25, 24, 23]

/-- The environment inputs consumed while generating one dataset row.  The
`Math.random()` draws are the explicit rationals (each in `[0,1)` when
valid); the `Date` arithmetic of script.js:154-158/666-669 (ISO string,
date string, month, weekday of the drawn timestamp) is not arithmetic the
core defines, so its results are carried as abstract inputs; the Gaussian
noise drawn inside `computeFootfallSample` is carried as `noise`. -/
structure RowInput where
  isoString : String
  dateStr : String
  month : ℕ
  dow : ℕ
  hourDraw : ℚ
  locDraw : ℚ
  weatherDraw1 : ℚ
  weatherDraw2 : ℚ
  tempDraw : ℚ
  festivalDraw : ℚ
  noise : ℚ
deriving DecidableEq, Repr

/-- A rational in the range of `Math.random()`. -/
def unitDraw (q : ℚ) : Prop := 0 ≤ q ∧ q < 1

/-- Well-formedness of the environment inputs: every uniform draw lies in
`[0,1)`, the month is a calendar month (`Date.getMonth()+1 ∈ [1,12]`) and
the weekday is `Date.getDay() ∈ [0,6]`. -/
def RowInput.Valid (i : RowInput) : Prop :=
  unitDraw i.hourDraw ∧ unitDraw i.locDraw ∧ unitDraw i.weatherDraw1 ∧
    unitDraw i.weatherDraw2 ∧ unitDraw i.tempDraw ∧
    unitDraw i.festivalDraw ∧ 1 ≤ i.month ∧ i.month ≤ 12 ∧ i.dow ≤ 6

instance (i : RowInput) : Decidable i.Valid := by
  unfold RowInput.Valid unitDraw; infer_instance

/-- Row construction shared by `generateDataset` (script.js:152-183) and
`generateChunkAndAppend` (script.js:665-692), which differ only in the
weather draw; `weather` is passed in.  `hour =
Math.floor(Math.random()*(21-6+1))+6`, `location =
LOCATIONS[Math.floor(Math.random()*LOCATIONS.length)]` (in range for valid
draws; the default stands for JavaScript `undefined`), `temp =
base_temp_by_month[month-1] + (Math.random()*4-2)`, festival/holiday flags
as in the source, and `footfall` from `computeFootfallSample` (truthiness
of the numeric flags gives the booleans). -/
def buildRow (inp : RowInput) (weather : String) : Observation :=
  let hour := (⌊inp.hourDraw * ((21 : ℚ) - 6 + 1)⌋).toNat + 6
  let location := LOCATIONS.getD (⌊inp.locDraw * (LOCATIONS.length : ℚ)⌋).toNat ""
  let temp := base_temp_by_month.getD (inp.month - 1) 0 + (inp.tempDraw * 4 - 2)
  let fest : ℕ :=
    if inp.dateStr ∈ FESTIVAL_DATES then 1
    else if inp.festivalDraw < 0.02 then 1 else 0
  let hol : ℕ := if inp.dow = 0 ∨ inp.dow = 6 then 1 else 0
  let footfall :=
    computeFootfallSample location hour weather temp (fest != 0) (hol != 0)
      inp.noise
  { datetime := inp.isoString
    date := inp.dateStr
    day_of_week := inp.dow
    month := inp.month
    hour := hour
    location := location
    weather := weather
    temperature := toFixed1 temp
    is_festival := fest
    is_holiday := hol
    footfall := footfall
    density_label := none
    density_int := none }

/-- One row of `generateDataset` (script.js:152-183).  Weather
(script.js:163): `weatherTypes[Math.random() < 0.6 ? Math.floor(Math.random()*1)
: Math.floor(Math.random()*weatherTypes.length)] || "Clear"`; note
`Math.floor(r*1) = 0` for a valid draw. -/
def generateDatasetRow (inp : RowInput) : Observation :=
  buildRow inp
    (weatherTypes.getD
      (if inp.weatherDraw1 < 0.6 then (⌊inp.weatherDraw2 * 1⌋).toNat
       else (⌊inp.weatherDraw2 * (weatherTypes.length : ℚ)⌋).toNat)
      "Clear")

/-- One row of `generateChunkAndAppend` (script.js:665-692).  Weather
(script.js:674): `(Math.random() < 0.65) ? "Clear" :
weatherTypes[Math.floor(Math.random()*weatherTypes.length)]`. -/
def generateChunkRow (inp : RowInput) : Observation :=
  buildRow inp
    (if inp.weatherDraw1 < 0.65 then "Clear"
     else weatherTypes.getD (⌊inp.weatherDraw2 * (weatherTypes.length : ℚ)⌋).toNat "")

/-- The raw rows produced by the loop of `generateDataset(n, seedOffset)`
(script.js:152-184) before the labeling pass.  `seedOffset` is added to the
drawn timestamp only (script.js:155); since the calendar derivation of that
timestamp is carried abstractly inside each `RowInput`, the parameter
touches nothing else — in particular it is never threaded into
`Math.random`. -/
def generateDatasetRows (n : ℕ) (seedOffset : ℤ) (inputs : ℕ → RowInput) :
    List Observation :=
  (List.range n).map fun i => generateDatasetRow (inputs i)

/-- `generateDataset(n, seedOffset)` (script.js:141-189): build the rows,
then run `computeGlobalQuartilesAndLabels`; the resulting labeled corpus
(the `DATASET` it leaves behind). -/
def generateDataset (n : ℕ) (seedOffset : ℤ) (inputs : ℕ → RowInput) :
    List Observation :=
  (computeGlobalQuartilesAndLabels (generateDatasetRows n seedOffset inputs)).2

/-- `generateChunkAndAppend(n)` (script.js:658-693): append `n` freshly
generated rows to the current `DATASET`. -/
def generateChunkAndAppend (DATASET : List Observation) (n : ℕ)
    (inputs : ℕ → RowInput) : List Observation :=
  DATASET ++ (List.range n).map fun i => generateChunkRow (inputs i)

/-- The corpus invariant of spec §8: hour in `[6,21]`, non-negative
footfall, and a known location. -/
def ObsInvariant (r : Observation) : Prop :=
  (6 ≤ r.hour ∧ r.hour ≤ 21) ∧ 0 ≤ r.footfall ∧ r.location ∈ LOCATIONS

/-- The spec's §4.6 ordering on top-hours entries: strictly larger average
first, ties broken by ascending hour. -/
def hourLexGE (a b : HourAvg) : Prop :=
  b.avg < a.avg ∨ (a.avg = b.avg ∧ a.hour ≤ b.hour)

instance : DecidableRel hourLexGE := fun a b =>
  decidable_of_iff (b.avg < a.avg ∨ (a.avg = b.avg ∧ a.hour ≤ b.hour)) Iff.rfl

instance : IsTrans HourAvg hourLexGE :=
  ⟨by intro a b c hab hbc; unfold hourLexGE at *; omega⟩

instance : IsTotal HourAvg hourLexGE :=
  ⟨by intro a b; unfold hourLexGE; omega⟩

instance : IsAntisymm HourAvg hourLexGE := ⟨by
  intro a b hab hba
  unfold hourLexGE at hab hba
  obtain ⟨h1, h2⟩ : a.avg = b.avg ∧ a.hour = b.hour := by omega
  cases a; cases b; simp_all⟩

/-- A concrete valid draw record: every uniform draw 0, a mid-week June
date. -/
def drawsA : RowInput :=
  { isoString := "2024-06-05T10:00:00.000Z", dateStr := "2024-06-05",
    month := 6, dow := 3, hourDraw := 0, locDraw := 0, weatherDraw1 := 0,
    weatherDraw2 := 0, tempDraw := 0, festivalDraw := 1/2, noise := 0 }

/-- A second valid draw record: identical to `drawsA` except for the hour
draw, as produced by a different state of the unseeded uniform source. -/
def drawsB : RowInput :=
  { drawsA with hourDraw := 1/2 }

/-- A test fixture row: an `Observation` with the given location, hour and
footfall, other fields fixed. -/
def obsAt (loc : String) (h : ℕ) (f : ℤ) : Observation :=
  { datetime := "", date := "2024-06-01", day_of_week := 3, month := 6,
    hour := h, location := loc, weather := "Clear", temperature := 25,
    is_festival := 0, is_holiday := 0, footfall := f, density_label := none,
    density_int := none }

/- ------------------------------------------------------------------ -/
/- Helper lemmas                                                      -/
/- ------------------------------------------------------------------ -/

lemma lookup_mem {m : List (String × ℚ)} {k : String} {v : ℚ}
    (h : m.lookup k = some v) : (k, v) ∈ m := by
  induction m with
  | nil => simp [List.lookup] at h
  | cons p t ih =>
    rcases p with ⟨a, b⟩
    by_cases hk : k = a
    · subst hk
      simp [List.lookup] at h
      simp [h]
    · have hb : (k == a) = false := beq_eq_false_iff_ne.mpr hk
      rw [List.lookup, hb] at h
      exact List.mem_cons_of_mem _ (ih h)

lemma lookupD_nonneg {m : List (String × ℚ)} {k : String} {d : ℚ}
    (hm : ∀ p ∈ m, 0 ≤ p.2) (hd : 0 ≤ d) : 0 ≤ lookupD m k d := by
  unfold lookupD
  cases h : m.lookup k with
  | none => simpa using hd
  | some v => simpa using hm _ (lookup_mem h)

lemma timeFactor_nonneg (hour : ℕ) : 0 ≤ timeFactor hour := by
  unfold timeFactor; split_ifs <;> norm_num

lemma tempFactor_nonneg (t : ℚ) : 0 ≤ tempFactor t := by
  unfold tempFactor; split_ifs <;> norm_num

lemma locPopularity_vals_nonneg : ∀ p ∈ locPopularity, (0:ℚ) ≤ p.2 := by
  intro p hp; fin_cases hp <;> norm_num

lemma baseScale_vals_nonneg : ∀ p ∈ baseScale, (0:ℚ) ≤ p.2 := by
  intro p hp; fin_cases hp <;> norm_num

lemma weatherMultiplier_vals_nonneg : ∀ p ∈ weatherMultiplier, (0:ℚ) ≤ p.2 := by
  intro p hp; fin_cases hp <;> norm_num

lemma meanFootfall_nonneg (location : String) (hour : ℕ) (weather : String)
    (temp : ℚ) (fest hol : Bool) :
    0 ≤ meanFootfall location hour weather temp fest hol := by
  unfold meanFootfall
  have h1 : 0 ≤ lookupD locPopularity location 1.0 :=
    lookupD_nonneg locPopularity_vals_nonneg (by norm_num)
  have h2 : 0 ≤ lookupD weatherMultiplier weather 1.0 :=
    lookupD_nonneg weatherMultiplier_vals_nonneg (by norm_num)
  have h3 : 0 ≤ lookupD baseScale location 200 :=
    lookupD_nonneg baseScale_vals_nonneg (by norm_num)
  have h4 := timeFactor_nonneg hour
  have h5 := tempFactor_nonneg temp
  have h6 : (0:ℚ) ≤ if fest then 2.0 else 1.0 := by split_ifs <;> norm_num
  have h7 : (0:ℚ) ≤ if hol then 1.4 else 1.0 := by split_ifs <;> norm_num
  positivity

lemma jsRound_nonneg {q : ℚ} (h : 0 ≤ q) : 0 ≤ jsRound q := by
  unfold jsRound
  have : (0:ℚ) ≤ q + 1/2 := by linarith
  exact Int.le_floor.mpr (by exact_mod_cast this)

lemma computeFootfallSample_noiseFree (location : String) (hour : ℕ)
    (weather : String) (temp : ℚ) (fest hol : Bool) :
    computeFootfallSample location hour weather temp fest hol 0 =
      jsRound (meanFootfall location hour weather temp fest hol) := by
  unfold computeFootfallSample
  rw [add_zero]
  exact max_eq_right (jsRound_nonneg (meanFootfall_nonneg _ _ _ _ _ _))

/- ------------------------------------------------------------------ -/
/- Claim theorems                                                     -/
/- ------------------------------------------------------------------ -/

/-- C3: with the noise fixed to 0, `computeFootfallSample` returns the
rounded product of the base scale, popularity, time, festival, holiday,
weather and temperature factors; in particular for `Mysore_Palace` at hour
18, Clear weather, 26°C, no festival and no holiday it returns
`round(800·1.5·1.4·1·1·1·1) = 1680`. -/
theorem footfall_noise_free_estimate :
    (∀ (location : String) (hour : ℕ) (weather : String) (temp : ℚ)
        (fest hol : Bool),
      computeFootfallSample location hour weather temp fest hol 0 =
        jsRound (meanFootfall location hour weather temp fest hol)) ∧
    meanFootfall "Mysore_Palace" 18 "Clear" 26 false false =
      800 * 1.5 * 1.4 * 1 * 1 * 1 * 1 ∧
    jsRound (800 * 1.5 * 1.4 * 1 * 1 * 1 * 1) = 1680 ∧
    computeFootfallSample "Mysore_Palace" 18 "Clear" 26 false false 0 = 1680 := by
  have hmean : meanFootfall "Mysore_Palace" 18 "Clear" 26 false false =
      800 * 1.5 * 1.4 * 1 * 1 * 1 * 1 := by
    simp [meanFootfall, lookupD, List.lookup, timeFactor, tempFactor]
    norm_num
  have hround : jsRound (800 * 1.5 * 1.4 * 1 * 1 * 1 * 1) = 1680 := by
    norm_num [jsRound]
  refine ⟨computeFootfallSample_noiseFree, hmean, hround, ?_⟩
  rw [computeFootfallSample_noiseFree, hmean, hround]

/-- C1: for an ordered quartile set, `mapToDensityLabel` returns `Low` when
`f ≤ q1`, `Medium` when `q1 < f ≤ q2`, `High` when `q2 < f ≤ q3` and
`Very_High` when `f > q3` (boundary values belong to the lower tier); the
four boundary instances for quartiles `{100, 200, 300}` are listed
explicitly. -/
theorem classify_threshold_policy (q : QuartileSet) (f : ℤ)
    (h12 : q.q1 ≤ q.q2) (h23 : q.q2 ≤ q.q3) :
    ((f ≤ q.q1 → mapToDensityLabel (some q) f = .label .Low) ∧
     (q.q1 < f → f ≤ q.q2 → mapToDensityLabel (some q) f = .label .Medium) ∧
     (q.q2 < f → f ≤ q.q3 → mapToDensityLabel (some q) f = .label .High) ∧
     (q.q3 < f → mapToDensityLabel (some q) f = .label .Very_High)) ∧
    (mapToDensityLabel (some ⟨100, 200, 300⟩) 100 = .label .Low ∧
     mapToDensityLabel (some ⟨100, 200, 300⟩) 101 = .label .Medium ∧
     mapToDensityLabel (some ⟨100, 200, 300⟩) 300 = .label .High ∧
     mapToDensityLabel (some ⟨100, 200, 300⟩) 301 = .label .Very_High) := by
  constructor
  · refine ⟨fun h1 => ?_, fun h1 h2 => ?_, fun h1 h2 => ?_, fun h1 => ?_⟩ <;>
      simp only [mapToDensityLabel] <;> split_ifs <;> first | rfl | omega
  · exact ⟨by decide, by decide, by decide, by decide⟩

/-- Witness for C1: the theorem applied to the quartile set `{100,200,300}`
and footfall 100. -/
theorem classify_threshold_policy_witness :
    mapToDensityLabel (some ⟨100, 200, 300⟩) 100 = .label .Low :=
  (classify_threshold_policy ⟨100, 200, 300⟩ 100 (by decide) (by decide)).1.1
    (by decide)

/-- C5: `mapToDensityLabel` is monotone in the footfall for any fixed
quartile set: whenever `a ≤ b`, the tier assigned to `a` is at most the tier
assigned to `b` under the ordering Low < Medium < High < Very_High
(`densityRank`). -/
theorem classify_monotone (q : QuartileSet) (a b : ℤ) (hab : a ≤ b) :
    ∃ la lb : DensityLabel,
      mapToDensityLabel (some q) a = .label la ∧
      mapToDensityLabel (some q) b = .label lb ∧
      densityRank la ≤ densityRank lb := by
  simp only [mapToDensityLabel]
  split_ifs <;> refine ⟨_, _, rfl, rfl, ?_⟩ <;> first | decide | omega

/-- Witness for C5: the theorem applied to quartiles `{100,200,300}` and
footfalls 150 ≤ 250. -/
theorem classify_monotone_witness :
    ∃ la lb : DensityLabel,
      mapToDensityLabel (some ⟨100, 200, 300⟩) 150 = .label la ∧
      mapToDensityLabel (some ⟨100, 200, 300⟩) 250 = .label lb ∧
      densityRank la ≤ densityRank lb :=
  classify_monotone ⟨100, 200, 300⟩ 150 250 (by decide)

/-- C8: when the quartiles are uninitialized (`QUARTILES` is null),
`mapToDensityLabel` returns the explicit `"Unknown"` result for every
footfall value — a total function that never yields one of the four tiers in
that state. -/
theorem classify_uninitialized_unavailable :
    ∀ f : ℤ, mapToDensityLabel none f = .Unknown ∧
      labelOfResult (mapToDensityLabel none f) = none :=
  fun _ => ⟨rfl, rfl⟩

lemma insertionSort_eq_of_sorted {samples s : List ℤ} (hp : samples.Perm s)
    (hs : s.Sorted (· ≤ ·)) : samples.insertionSort (· ≤ ·) = s :=
  List.eq_of_perm_of_sorted ((List.perm_insertionSort _ _).trans hp)
    (List.sorted_insertionSort _ _) hs

lemma getD_mono_of_sorted {l : List ℤ} (hs : l.Sorted (· ≤ ·)) {i j : ℕ}
    (hij : i ≤ j) (hj : j < l.length) : l.getD i 0 ≤ l.getD j 0 := by
  have hi : i < l.length := lt_of_le_of_lt hij hj
  rw [List.getD_eq_getElem l 0 hi, List.getD_eq_getElem l 0 hj]
  rcases eq_or_lt_of_le hij with h | h
  · subst h; exact le_refl _
  · exact List.pairwise_iff_getElem.mp hs i j hi hj h

lemma compute_quartiles_mono (samples : List ℤ) :
    (compute_quartiles samples).q1 ≤ (compute_quartiles samples).q2 ∧
    (compute_quartiles samples).q2 ≤ (compute_quartiles samples).q3 := by
  simp only [compute_quartiles]
  split_ifs with hn
  · exact ⟨le_refl _, le_refl _⟩
  · have hs := List.sorted_insertionSort (· ≤ ·) samples
    have hlen : (samples.insertionSort (· ≤ ·)).length = samples.length :=
      List.length_insertionSort _ _
    have hb : 3 * samples.length / 4 < (samples.insertionSort (· ≤ ·)).length := by
      rw [hlen]; omega
    have h2 : samples.length / 2 < (samples.insertionSort (· ≤ ·)).length := by
      rw [hlen]; omega
    exact ⟨getD_mono_of_sorted hs (by omega) h2,
           getD_mono_of_sorted hs (by omega) hb⟩

lemma compute_quartiles_char {samples s : List ℤ} (hp : samples.Perm s)
    (hs : s.Sorted (· ≤ ·)) (hne : samples ≠ []) :
    compute_quartiles samples =
      ⟨s.getD (samples.length / 4) 0, s.getD (samples.length / 2) 0,
       s.getD (3 * samples.length / 4) 0⟩ := by
  have hss := insertionSort_eq_of_sorted hp hs
  simp only [compute_quartiles, hss]
  rw [if_neg (by simpa [List.length_eq_zero] using hne)]

lemma global_quartiles_eq (dataset : List Observation) :
    (computeGlobalQuartilesAndLabels dataset).1 =
      compute_quartiles (dataset.map (·.footfall)) := by
  simp only [computeGlobalQuartilesAndLabels, compute_quartiles,
    List.length_insertionSort]
  split_ifs <;> rfl

lemma perLocationStat_quartiles_eq (dataset : List Observation) (loc : String) :
    (⟨(perLocationStat dataset loc).q1, (perLocationStat dataset loc).q2,
      (perLocationStat dataset loc).q3⟩ : QuartileSet) =
      compute_quartiles
        ((dataset.filter (fun d => d.location = loc)).map (·.footfall)) := by
  simp only [perLocationStat, compute_quartiles, List.length_insertionSort]
  split_ifs <;> rfl

lemma mem_computePerLocationStats {dataset : List Observation} {loc : String}
    {stats : LocationStats}
    (h : (loc, stats) ∈ computePerLocationStats dataset) :
    stats = perLocationStat dataset loc := by
  unfold computePerLocationStats at h
  obtain ⟨l, _, heq⟩ := List.mem_map.mp h
  obtain ⟨rfl, rfl⟩ : l = loc ∧ perLocationStat dataset l = stats := by
    simpa using heq
  rfl

/-- C2: the global quartiles equal `compute_quartiles` of the corpus
footfall column, every per-location quartile triple equals
`compute_quartiles` of that location's footfall subset (the identical
algorithm), the empty sample yields `{0,0,0}`, and on a non-empty sample
`compute_quartiles` is exactly `sorted[⌊n/4⌋], sorted[⌊n/2⌋], sorted[⌊3n/4⌋]`
of the (unique) ascending sorted permutation of the sample. -/
theorem quartile_engine_correct (dataset : List Observation)
    (samples s : List ℤ) :
    ((computeGlobalQuartilesAndLabels dataset).1 =
        compute_quartiles (dataset.map (·.footfall))) ∧
    (∀ loc stats, (loc, stats) ∈ computePerLocationStats dataset →
        (⟨stats.q1, stats.q2, stats.q3⟩ : QuartileSet) =
          compute_quartiles
            ((dataset.filter (fun d => d.location = loc)).map (·.footfall))) ∧
    compute_quartiles [] = ⟨0, 0, 0⟩ ∧
    (samples.Perm s → s.Sorted (· ≤ ·) → samples ≠ [] →
      compute_quartiles samples =
        ⟨s.getD (samples.length / 4) 0, s.getD (samples.length / 2) 0,
         s.getD (3 * samples.length / 4) 0⟩) := by
  refine ⟨global_quartiles_eq dataset, ?_, rfl, compute_quartiles_char⟩
  intro loc stats h
  rw [mem_computePerLocationStats h]
  exact perLocationStat_quartiles_eq dataset loc

/-- Witness for C2: the sorted-permutation characterisation applied to the
sample `[3, 1, 2]` with sorted permutation `[1, 2, 3]`. -/
theorem quartile_engine_correct_witness :
    compute_quartiles [(3:ℤ), 1, 2] =
      ⟨[(1:ℤ), 2, 3].getD ([(3:ℤ), 1, 2].length / 4) 0,
       [(1:ℤ), 2, 3].getD ([(3:ℤ), 1, 2].length / 2) 0,
       [(1:ℤ), 2, 3].getD (3 * [(3:ℤ), 1, 2].length / 4) 0⟩ :=
  (quartile_engine_correct [] [3, 1, 2] [1, 2, 3]).2.2.2
    (by decide) (by decide) (by decide)

/-- C6: every quartile set the program produces is non-decreasing —
`compute_quartiles` on any sample, the global quartiles of
`computeGlobalQuartilesAndLabels`, and each per-location quartile triple of
`computePerLocationStats` satisfy `q1 ≤ q2 ≤ q3`. -/
theorem quartiles_nondecreasing (samples : List ℤ)
    (dataset : List Observation) :
    ((compute_quartiles samples).q1 ≤ (compute_quartiles samples).q2 ∧
     (compute_quartiles samples).q2 ≤ (compute_quartiles samples).q3) ∧
    ((computeGlobalQuartilesAndLabels dataset).1.q1 ≤
        (computeGlobalQuartilesAndLabels dataset).1.q2 ∧
     (computeGlobalQuartilesAndLabels dataset).1.q2 ≤
        (computeGlobalQuartilesAndLabels dataset).1.q3) ∧
    (∀ loc stats, (loc, stats) ∈ computePerLocationStats dataset →
      stats.q1 ≤ stats.q2 ∧ stats.q2 ≤ stats.q3) := by
  refine ⟨compute_quartiles_mono samples, ?_, ?_⟩
  · rw [global_quartiles_eq]
    exact compute_quartiles_mono _
  · intro loc stats h
    rw [mem_computePerLocationStats h]
    have hq := perLocationStat_quartiles_eq dataset loc
    have hm := compute_quartiles_mono
      ((dataset.filter (fun d => d.location = loc)).map (·.footfall))
    rw [← hq] at hm
    exact hm

/-- Witness for C6: the per-location part of the theorem applied to a
one-row corpus at `Mysore_Zoo`. -/
theorem quartiles_nondecreasing_witness :
    (perLocationStat [obsAt "Mysore_Zoo" 10 5] "Mysore_Zoo").q1 ≤
      (perLocationStat [obsAt "Mysore_Zoo" 10 5] "Mysore_Zoo").q2 ∧
    (perLocationStat [obsAt "Mysore_Zoo" 10 5] "Mysore_Zoo").q2 ≤
      (perLocationStat [obsAt "Mysore_Zoo" 10 5] "Mysore_Zoo").q3 :=
  (quartiles_nondecreasing [] [obsAt "Mysore_Zoo" 10 5]).2.2 "Mysore_Zoo"
    (perLocationStat [obsAt "Mysore_Zoo" 10 5] "Mysore_Zoo")
    (List.mem_map.mpr ⟨"Mysore_Zoo", by decide, rfl⟩)

lemma labelRow_spec (q : QuartileSet) (r : Observation) :
    (labelRow q r).density_label =
      labelOfResult (mapToDensityLabel (some q) (labelRow q r).footfall) ∧
    (labelRow q r).density_int =
      ((labelRow q r).density_label).map densityRank := by
  simp only [labelRow, mapToDensityLabel, labelOfResult]
  split_ifs <;> simp [labelOfResult, densityRank]

/-- C10: after `computeGlobalQuartilesAndLabels`, every observation carries
exactly the `density_label` the standalone classifier `mapToDensityLabel`
assigns to its footfall under the computed global quartiles, and a
`density_int` equal to that label's rank `Low=0, Medium=1, High=2,
Very_High=3` — the inline labeling loop and the classifier agree. -/
theorem bulk_labeling_matches_classifier (dataset : List Observation) :
    ∀ r ∈ (computeGlobalQuartilesAndLabels dataset).2,
      r.density_label =
        labelOfResult
          (mapToDensityLabel (some (computeGlobalQuartilesAndLabels dataset).1)
            r.footfall) ∧
      r.density_int = r.density_label.map densityRank := by
  intro r hr
  by_cases hn : ((dataset.map (·.footfall)).insertionSort (· ≤ ·)).length = 0
  · exfalso
    have hd : dataset = [] := by
      rwa [List.length_insertionSort, List.length_map,
        List.length_eq_zero] at hn
    subst hd
    simp [computeGlobalQuartilesAndLabels] at hr
  · simp only [computeGlobalQuartilesAndLabels, hn, if_false] at hr ⊢
    obtain ⟨r0, _, rfl⟩ := List.mem_map.mp hr
    exact labelRow_spec _ r0

/-- Witness for C10: the theorem applied to the one-row corpus at
`Mysore_Zoo` with footfall 5, whose global quartiles are `{5,5,5}`. -/
theorem bulk_labeling_matches_classifier_witness :
    (labelRow ⟨5, 5, 5⟩ (obsAt "Mysore_Zoo" 10 5)).density_label =
      labelOfResult
        (mapToDensityLabel
          (some (computeGlobalQuartilesAndLabels [obsAt "Mysore_Zoo" 10 5]).1)
          (labelRow ⟨5, 5, 5⟩ (obsAt "Mysore_Zoo" 10 5)).footfall) ∧
    (labelRow ⟨5, 5, 5⟩ (obsAt "Mysore_Zoo" 10 5)).density_int =
      ((labelRow ⟨5, 5, 5⟩ (obsAt "Mysore_Zoo" 10 5)).density_label).map
        densityRank :=
  bulk_labeling_matches_classifier [obsAt "Mysore_Zoo" 10 5]
    (labelRow ⟨5, 5, 5⟩ (obsAt "Mysore_Zoo" 10 5)) (by decide)

lemma floor_draw_nonneg {d : ℚ} (h0 : 0 ≤ d) (m : ℕ) :
    0 ≤ ⌊d * (m : ℚ)⌋ :=
  Int.le_floor.mpr (by push_cast; exact mul_nonneg h0 (Nat.cast_nonneg m))

lemma toNat_floor_draw_lt {d : ℚ} (h1 : d < 1) {m : ℕ} (hm : 0 < m) :
    (⌊d * (m : ℚ)⌋).toNat < m := by
  have hz : ⌊d * (m : ℚ)⌋ < (m : ℤ) := by
    apply Int.floor_lt.mpr
    push_cast
    calc d * m < 1 * m := by
          exact mul_lt_mul_of_pos_right h1 (by exact_mod_cast hm)
      _ = m := one_mul _
  omega

lemma getD_mem_of_lt {α : Type} {l : List α} {i : ℕ} {d : α}
    (h : i < l.length) : l.getD i d ∈ l := by
  rw [List.getD_eq_getElem l d h]
  exact List.getElem_mem h

lemma buildRow_invariant (inp : RowInput) (w : String) (hv : inp.Valid) :
    ObsInvariant (buildRow inp w) := by
  obtain ⟨hh, hl, -, -, -, -, -, -, -⟩ := hv
  refine ⟨?_, ?_, ?_⟩
  · have e : ((21 : ℚ) - 6 + 1) = ((16 : ℕ) : ℚ) := by norm_num
    rw [show (buildRow inp w).hour =
        (⌊inp.hourDraw * ((21 : ℚ) - 6 + 1)⌋).toNat + 6 from rfl, e]
    have h0 := floor_draw_nonneg hh.1 16
    have h1 := toNat_floor_draw_lt hh.2 (show 0 < 16 by norm_num)
    omega
  · show (0 : ℤ) ≤ max 0 _
    exact le_max_left _ _
  · rw [show (buildRow inp w).location =
        LOCATIONS.getD (⌊inp.locDraw * (LOCATIONS.length : ℚ)⌋).toNat ""
      from rfl]
    exact getD_mem_of_lt
      (toNat_floor_draw_lt hl.2 (show 0 < LOCATIONS.length by decide))

lemma labelRow_invariant {q : QuartileSet} {r : Observation}
    (h : ObsInvariant r) : ObsInvariant (labelRow q r) := by
  simpa [ObsInvariant, labelRow] using h

lemma computeGlobal_snd_invariant {ds : List Observation}
    (h : ∀ r ∈ ds, ObsInvariant r) :
    ∀ r ∈ (computeGlobalQuartilesAndLabels ds).2, ObsInvariant r := by
  intro r hr
  by_cases hn : ((ds.map (·.footfall)).insertionSort (· ≤ ·)).length = 0
  · simp only [computeGlobalQuartilesAndLabels, hn] at hr
    simp at hr
    exact h r hr
  · simp only [computeGlobalQuartilesAndLabels, hn, if_false] at hr
    obtain ⟨r0, hr0, rfl⟩ := List.mem_map.mp hr
    exact labelRow_invariant (h r0 hr0)

/-- C4: every observation produced by the dataset generator — both by
`generateDataset` for any requested count and by `generateChunkAndAppend`
for any batch — has `6 ≤ hour ≤ 21`, `footfall ≥ 0` and a location drawn
from the fixed `LOCATIONS` list, provided the environment draws are valid
`Math.random()` outputs. -/
theorem generator_row_invariants :
    (∀ (n : ℕ) (seedOffset : ℤ) (inputs : ℕ → RowInput),
      (∀ i, (inputs i).Valid) →
      ∀ r ∈ generateDataset n seedOffset inputs, ObsInvariant r) ∧
    (∀ (DATASET : List Observation) (n : ℕ) (inputs : ℕ → RowInput),
      (∀ i, (inputs i).Valid) →
      ∀ r ∈ generateChunkAndAppend DATASET n inputs,
        r ∈ DATASET ∨ ObsInvariant r) := by
  constructor
  · intro n seedOffset inputs hv
    apply computeGlobal_snd_invariant
    intro r hr
    obtain ⟨i, -, rfl⟩ := List.mem_map.mp hr
    exact buildRow_invariant _ _ (hv i)
  · intro DATASET n inputs hv r hr
    rcases List.mem_append.mp hr with h | h
    · exact Or.inl h
    · obtain ⟨i, -, rfl⟩ := List.mem_map.mp h
      exact Or.inr (buildRow_invariant _ _ (hv i))

lemma drawsA_valid : drawsA.Valid := by
  norm_num [RowInput.Valid, unitDraw, drawsA]

/-- Witness for C4: one chunk row generated from the concrete draw record
`drawsA` satisfies the invariant. -/
theorem generator_row_invariants_witness :
    generateChunkRow drawsA ∈ ([] : List Observation) ∨
      ObsInvariant (generateChunkRow drawsA) :=
  generator_row_invariants.2 [] 1 (fun _ => drawsA) (fun _ => drawsA_valid)
    (generateChunkRow drawsA) (by simp [generateChunkAndAppend])

lemma drawsB_valid : drawsB.Valid := by
  norm_num [RowInput.Valid, unitDraw, drawsB, drawsA]

lemma computeGlobal_snd_map_hour (ds : List Observation) :
    ((computeGlobalQuartilesAndLabels ds).2).map (·.hour) =
      ds.map (·.hour) := by
  by_cases hn : ((ds.map (·.footfall)).insertionSort (· ≤ ·)).length = 0
  · simp [computeGlobalQuartilesAndLabels, hn]
  · simp only [computeGlobalQuartilesAndLabels, hn, if_false]
    rw [List.map_map]
    congr 1

lemma generateDatasetRow_drawsA_hour : (generateDatasetRow drawsA).hour = 6 := by
  show (⌊drawsA.hourDraw * ((21 : ℚ) - 6 + 1)⌋).toNat + 6 = 6
  norm_num [drawsA]

lemma generateDatasetRow_drawsB_hour : (generateDatasetRow drawsB).hour = 14 := by
  show (⌊drawsB.hourDraw * ((21 : ℚ) - 6 + 1)⌋).toNat + 6 = 14
  norm_num [drawsB, drawsA]
  rfl

/-- C9 (counterexample to seeded determinism): `generateDataset` carries no
seed for its uniform source — its `seedOffset` parameter only shifts the
drawn timestamp.  Two calls with identical count 1 and identical seed
argument 0, whose unseeded `Math.random()` happens to return the valid draw
records `drawsA` resp. `drawsB` (which differ only in the hour draw),
produce different corpora. -/
theorem generateDataset_same_seed_differs :
    (∀ i : ℕ, ((fun _ => drawsA) i).Valid) ∧
    (∀ i : ℕ, ((fun _ => drawsB) i).Valid) ∧
    generateDataset 1 0 (fun _ => drawsA) ≠
      generateDataset 1 0 (fun _ => drawsB) := by
  refine ⟨fun _ => drawsA_valid, fun _ => drawsB_valid, ?_⟩
  intro h
  have hm := congrArg (List.map (·.hour)) h
  rw [generateDataset, generateDataset, computeGlobal_snd_map_hour,
    computeGlobal_snd_map_hour] at hm
  simp [generateDatasetRows, generateDatasetRow_drawsA_hour,
    generateDatasetRow_drawsB_hour] at hm

lemma hoursPresent_sorted_lt (rows : List Observation) :
    (hoursPresent rows).Sorted (· < ·) := by
  have hs : (hoursPresent rows).Sorted (· ≤ ·) :=
    List.sorted_insertionSort _ _
  have hn : (hoursPresent rows).Nodup :=
    (List.perm_insertionSort _ _).nodup_iff.mpr ((rows.map (·.hour)).nodup_dedup)
  exact hs.lt_of_le hn

lemma hourAvgBase_hours_strict (rows : List Observation) :
    (hourAvgBase rows).Pairwise (fun a b => a.hour < b.hour) := by
  unfold hourAvgBase
  rw [List.pairwise_map]
  exact (hoursPresent_sorted_lt rows).imp (by exact fun h => h)

lemma orderedInsert_avgGE_sorted {x : HourAvg} {l : List HourAvg}
    (hl : l.Sorted hourLexGE) (hx : ∀ y ∈ l, x.hour < y.hour) :
    (List.orderedInsert avgGE x l).Sorted hourLexGE := by
  induction l with
  | nil => simp [List.orderedInsert, List.sorted_singleton]
  | cons y t ih =>
    rw [List.orderedInsert]
    split_ifs with h
    · rw [List.sorted_cons]
      refine ⟨?_, hl⟩
      intro b hb
      have hyx : y.avg ≤ x.avg := h
      rcases List.mem_cons.mp hb with rfl | hbt
      · have hxb : x.hour < b.hour := hx b (List.mem_cons_self _ _)
        unfold hourLexGE
        omega
      · have hyb := (List.sorted_cons.mp hl).1 b hbt
        have hxb : x.hour < b.hour := hx b (List.mem_cons_of_mem _ hbt)
        unfold hourLexGE at hyb ⊢
        omega
    · have hl' := List.sorted_cons.mp hl
      rw [List.sorted_cons]
      refine ⟨?_, ih hl'.2 (fun z hz => hx z (List.mem_cons_of_mem _ hz))⟩
      intro b hb
      rcases (List.mem_orderedInsert avgGE).mp hb with rfl | hbt
      · have hxy : ¬ y.avg ≤ b.avg := h
        unfold hourLexGE
        omega
      · exact hl'.1 b hbt

lemma insertionSort_avgGE_lex_sorted {l : List HourAvg}
    (h : l.Pairwise (fun a b => a.hour < b.hour)) :
    (l.insertionSort avgGE).Sorted hourLexGE := by
  induction l with
  | nil => simp [List.insertionSort]
  | cons x t ih =>
    rw [List.insertionSort]
    apply orderedInsert_avgGE_sorted (ih (List.Pairwise.of_cons h))
    intro y hy
    exact (List.pairwise_cons.mp h).1 y ((List.mem_insertionSort _).mp hy)

lemma insertionSort_avgGE_eq_lex {l : List HourAvg}
    (h : l.Pairwise (fun a b => a.hour < b.hour)) :
    l.insertionSort avgGE = l.insertionSort hourLexGE :=
  List.eq_of_perm_of_sorted
    ((List.perm_insertionSort _ _).trans (List.perm_insertionSort _ _).symm)
    (insertionSort_avgGE_lex_sorted h)
    (List.sorted_insertionSort _ _)

lemma perLocationStat_topHours (dataset : List Observation) (loc : String) :
    (perLocationStat dataset loc).topHours =
      topHoursFor (dataset.filter (fun d => d.location = loc)) := by
  simp only [perLocationStat]
  split_ifs with h
  · have hrows : dataset.filter (fun d => d.location = loc) = [] := by
      rwa [List.length_insertionSort, List.length_map,
        List.length_eq_zero] at h
    rw [hrows]
    rfl
  · rfl

lemma hourAvgBase_hours_iff (rows : List Observation) (h : ℕ) :
    (∃ e ∈ hourAvgBase rows, e.hour = h) ↔ ∃ r ∈ rows, r.hour = h := by
  constructor
  · rintro ⟨e, he, rfl⟩
    obtain ⟨h0, hh0, rfl⟩ := List.mem_map.mp he
    have hmem : h0 ∈ rows.map (·.hour) := by
      have h1 := (List.mem_insertionSort _).mp hh0
      exact (List.mem_dedup).mp h1
    obtain ⟨r, hr, hrh⟩ := List.mem_map.mp hmem
    exact ⟨r, hr, hrh⟩
  · rintro ⟨r, hr, rfl⟩
    refine ⟨_, List.mem_map_of_mem _ ?_, rfl⟩
    rw [hoursPresent, List.mem_insertionSort, List.mem_dedup]
    exact List.mem_map_of_mem _ hr

lemma mem_hourAvgBase_avg {rows : List Observation} {e : HourAvg}
    (he : e ∈ hourAvgBase rows) :
    e.avg = jsRound ((hourSum rows e.hour : ℚ) / (hourCount rows e.hour : ℚ)) ∧
    0 < hourCount rows e.hour := by
  obtain ⟨h0, hh0, rfl⟩ := List.mem_map.mp he
  refine ⟨rfl, ?_⟩
  have hmem : h0 ∈ rows.map (·.hour) := by
    have h1 := (List.mem_insertionSort _).mp hh0
    exact (List.mem_dedup).mp h1
  obtain ⟨r, hr, hrh⟩ := List.mem_map.mp hmem
  exact List.length_pos.mpr
    (List.ne_nil_of_mem (List.mem_filter.mpr ⟨hr, by simp [hrh]⟩))

/-- C7: the per-location top-hours list contains at most 5 entries; it is
exactly the first 5 entries of the group-average list sorted by the spec's
order `hourLexGE` (descending average, ties by ascending hour); each entry's
average is `Math.round` of the arithmetic mean footfall of that location's
rows at that hour (with a non-empty group); the grouped hours are exactly
the hours occurring at that location; and a location with no observations
yields the empty sequence. -/
theorem top_hours_correct (dataset : List Observation) (loc : String) :
    ((dataset.filter (fun d => d.location = loc)) = [] →
      (perLocationStat dataset loc).topHours = []) ∧
    (perLocationStat dataset loc).topHours.length ≤ 5 ∧
    (perLocationStat dataset loc).topHours =
      ((hourAvgBase (dataset.filter (fun d => d.location = loc))).insertionSort
        hourLexGE).take 5 ∧
    (∀ e ∈ (perLocationStat dataset loc).topHours,
      e.avg = jsRound
        ((hourSum (dataset.filter (fun d => d.location = loc)) e.hour : ℚ) /
          (hourCount (dataset.filter (fun d => d.location = loc)) e.hour : ℚ)) ∧
      0 < hourCount (dataset.filter (fun d => d.location = loc)) e.hour) ∧
    (∀ h : ℕ,
      (∃ e ∈ hourAvgBase (dataset.filter (fun d => d.location = loc)),
        e.hour = h) ↔
      ∃ r ∈ dataset.filter (fun d => d.location = loc), r.hour = h) := by
  have htop := perLocationStat_topHours dataset loc
  refine ⟨?_, ?_, ?_, ?_, hourAvgBase_hours_iff _⟩
  · intro h0
    rw [htop, h0]
    rfl
  · rw [htop, topHoursFor, List.length_take]
    exact min_le_left _ _
  · rw [htop, topHoursFor,
      insertionSort_avgGE_eq_lex (hourAvgBase_hours_strict _)]
  · intro e he
    rw [htop, topHoursFor] at he
    exact mem_hourAvgBase_avg
      ((List.mem_insertionSort _).mp (List.mem_of_mem_take he))

/-- Witness for C7: the empty-location branch of the theorem applied to a
one-row corpus that contains no `KRS_Dam` rows. -/
theorem top_hours_correct_witness :
    (perLocationStat [obsAt "Mysore_Palace" 9 7] "KRS_Dam").topHours = [] :=
  (top_hours_correct [obsAt "Mysore_Palace" 9 7] "KRS_Dam").1 (by decide)

end CrowdScript
